import Mathlib

/-!
Verification of `src/script.py`, a sequential pipeline:
fetch an image URL from the Pixabay search API, download the image,
optionally upload it to Canva through a scripted browser session, and
write a JSON run record.

The embedding is a shallow one.  The pure JSON-processing core of
`get_pixabay_image_url` becomes a Lean function on an explicit response
value.  The effectful parts (`main`, `upload_to_canva`, `download`)
become functions from an explicit world/oracle — environment variables,
HTTP results, and the browser outcome — to a trace of observable events
plus an exit kind.  Python truthiness on optional strings (where both
`None` and the empty string are falsy) is modelled explicitly, since
the script branches on `if not x` throughout.
-/

/-- Python truthiness of an `Optional[str]` value: `None` and the empty
string are falsy, every other string is truthy. -/
def pyTruthyStr : Option String → Bool
  | none => false
  | some s => !s.isEmpty

/-- Python `a or b` on `Optional[str]` values: yields `a` when `a` is
truthy, otherwise `b`. -/
def pyOrStr (a b : Option String) : Option String :=
  if pyTruthyStr a then a else b

/-- One element of the provider response's `hits` array, keeping the two
fields the script reads.  `none` models an absent key (`dict.get`
returning `None`). -/
structure Hit where
  webformatURL : Option String
  largeImageURL : Option String
deriving DecidableEq, Repr

/-- The decoded JSON body of the Pixabay search response.  `hits = none`
models a body without a `hits` key. -/
structure PixabayResponse where
  hits : Option (List Hit)
deriving DecidableEq, Repr

/-- Embeds the response-processing core of `get_pixabay_image_url`
(src/script.py lines 26-31): `hits = data.get("hits") or []`, return
`None` on an empty list, otherwise
`hits[0].get("webformatURL") or hits[0].get("largeImageURL")`. -/
def get_pixabay_image_url (data : PixabayResponse) : Option String :=
  let hits := data.hits.getD []
  match hits with
  | [] => none
  | first :: _ => pyOrStr first.webformatURL first.largeImageURL

/-- Payload of a file written by the script. -/
inductive FileData where
  | imageBytes
  | runRecord (pixabay_image_url : String) (query : String)
  | screenshotPng
deriving DecidableEq, Repr

/-- Observable actions of a run, in order of occurrence. -/
inductive Event where
  | mkdirEnsure (dir : String)
  | printLine (msg : String)
  | httpGet (url : String)
  | browserLaunch
  | newContext
  | newPage
  | browserAct (desc : String)
  | writeFile (path : String) (data : FileData)
  | contextClose
  | browserClose
deriving DecidableEq, Repr

/-- Does the event write a file on disk?  Directory creation is not a
file write. -/
def isWriteEvent : Event → Bool
  | Event.writeFile _ _ => true
  | _ => false

/-- The environment variables the script reads; `none` models an unset
variable. -/
structure Env where
  PIXABAY_API_KEY : Option String
  PIXABAY_QUERY : Option String
  CANVA_EMAIL : Option String
  CANVA_PASSWORD : Option String
deriving DecidableEq, Repr

/-- Result of an outbound HTTP request after `raise_for_status`: either a
decoded body, or a transport/HTTP exception (named by its type) that
propagates. -/
inductive HttpResult (α : Type) where
  | ok (val : α)
  | transportError (excType : String)
deriving DecidableEq, Repr

/-- Outcome the external world imposes on the browser automation:
whether the optional Uploads-panel click times out (a `PWTimeout`
swallowed by the inner `try`), and whether the `try` block raises an
exception — `some (k, ty, msg)` meaning the exception of type `ty` with
message `msg` is raised after `k` steps of the sequence completed. -/
structure BrowserOracle where
  uploadsClickTimedOut : Bool
  failure : Option (Nat × String × String)
deriving DecidableEq, Repr

/-- The steps of the `try` block of `upload_to_canva`
(src/script.py lines 53-82), in program order. -/
def canvaTrySteps (imagePath : String) (uploadsClickTimedOut : Bool) : List Event :=
  [ Event.browserAct "goto https://www.canva.com/"
  , Event.browserAct "click link Log in"
  , Event.browserAct "fill input[name=email]"
  , Event.browserAct "fill input[name=password]"
  , Event.browserAct "press input[name=password] Enter"
  , Event.browserAct "wait_for_load_state networkidle"
  , Event.browserAct "goto https://www.canva.com/create/"
  , Event.browserAct (if uploadsClickTimedOut then
      "click button Uploads - TimeoutError swallowed"
    else "click button Uploads")
  , Event.browserAct ("set_input_files input[type=file] " ++ imagePath)
  , Event.browserAct "wait_for_timeout 5000" ]

/-- Embeds `upload_to_canva` (src/script.py lines 41-89) as the trace of
events it produces.  Absent or empty credentials skip the whole step.
Otherwise the browser is launched; the `try` block either runs to the
success screenshot or is cut short by the oracle's exception, which the
`except` clause logs and answers with an error screenshot; the `finally`
clause closes the context and the browser on both paths. -/
def upload_to_canva (env : Env) (oracle : BrowserOracle) (imagePath : String) :
    List Event :=
  if !pyTruthyStr env.CANVA_EMAIL || !pyTruthyStr env.CANVA_PASSWORD then
    [Event.printLine "CANVA_EMAIL/CANVA_PASSWORD not set; skipping Canva automation."]
  else
    let steps := canvaTrySteps imagePath oracle.uploadsClickTimedOut
    let body :=
      match oracle.failure with
      | none =>
          steps ++
          [ Event.writeFile "artifacts/canva_after_upload.png" FileData.screenshotPng
          , Event.printLine "Upload attempted. Screenshot saved." ]
      | some (k, ty, msg) =>
          steps.take k ++
          [ Event.printLine ("Canva automation failed: " ++ ty ++ " " ++ msg)
          , Event.writeFile "artifacts/error.png" FileData.screenshotPng ]
    [Event.browserLaunch, Event.newContext, Event.newPage] ++ body ++
      [Event.contextClose, Event.browserClose]

/-- How a run of `main` ends: `sys.exit(code)`, normal return (process
exit code 0), or an uncaught exception aborting the process. -/
inductive ExitKind where
  | exited (code : Nat)
  | completed
  | uncaught (excType : String)
deriving DecidableEq, Repr

/-- The process exit code an `ExitKind` yields, when it is a clean
numeric exit. -/
def exitCode : ExitKind → Option Nat
  | ExitKind.exited c => some c
  | ExitKind.completed => some 0
  | ExitKind.uncaught _ => none

/-- Everything the external world decides for one run. -/
structure World where
  env : Env
  searchResult : HttpResult PixabayResponse
  downloadOk : Bool
  downloadExcType : String
  browser : BrowserOracle
deriving DecidableEq, Repr

/-- The Pixabay search endpoint. -/
def pixabaySearchUrl : String := "https://pixabay.com/api/"

namespace script

/-- Embeds `main` (src/script.py lines 91-114): validate the API key,
resolve the image URL, download it, attempt the Canva upload, and write
the run record.  Returns the event trace and how the process ends. -/
def main (w : World) : List Event × ExitKind :=
  let query := w.env.PIXABAY_QUERY.getD "sunset"
  if !pyTruthyStr w.env.PIXABAY_API_KEY then
    ([Event.printLine "PIXABAY_API_KEY not set. Exiting."], ExitKind.exited 1)
  else
    match w.searchResult with
    | HttpResult.transportError ty =>
        ([Event.httpGet pixabaySearchUrl], ExitKind.uncaught ty)
    | HttpResult.ok data =>
        let url := get_pixabay_image_url data
        if !pyTruthyStr url then
          ([ Event.httpGet pixabaySearchUrl
           , Event.printLine ("No Pixabay hits for query: " ++ query)],
           ExitKind.exited 1)
        else
          let urlStr := url.getD ""
          if !w.downloadOk then
            ([Event.httpGet pixabaySearchUrl, Event.httpGet urlStr],
             ExitKind.uncaught w.downloadExcType)
          else
            let pre :=
              [ Event.httpGet pixabaySearchUrl
              , Event.httpGet urlStr
              , Event.writeFile "assets/image.jpg" FileData.imageBytes
              , Event.printLine "Downloaded image to: assets/image.jpg" ]
            let up := upload_to_canva w.env w.browser "assets/image.jpg"
            (pre ++ up ++
              [ Event.writeFile "artifacts/run.json"
                  (FileData.runRecord urlStr query)
              , Event.printLine "Done." ],
             ExitKind.completed)

/-- Whole-script run: the module-level directory creation
(src/script.py lines 10-13) followed by `main`. -/
def program (w : World) : List Event × ExitKind :=
  let m := main w
  ([Event.mkdirEnsure "assets", Event.mkdirEnsure "artifacts"] ++ m.1, m.2)

end script

/-- The image URL the run resolves, as a function of the world. -/
def resolvedUrl (w : World) : Option String :=
  match w.searchResult with
  | HttpResult.ok data => get_pixabay_image_url data
  | HttpResult.transportError _ => none

/-- The query string the run uses: `PIXABAY_QUERY`, defaulting to
`"sunset"` when unset. -/
def queryUsed (w : World) : String := w.env.PIXABAY_QUERY.getD "sunset"

/-- C1: for every provider response whose hits list is non-empty,
`get_pixabay_image_url` returns the first hit's `webformatURL` when that
field is present and non-empty, and the first hit's `largeImageURL`
exactly when `webformatURL` is absent or empty; hits beyond the first
never influence the result. -/
theorem first_hit_determines_url (first : Hit) (rest : List Hit) :
    get_pixabay_image_url ⟨some (first :: rest)⟩ =
      (if pyTruthyStr first.webformatURL then first.webformatURL
       else first.largeImageURL) ∧
    get_pixabay_image_url ⟨some (first :: rest)⟩ =
      get_pixabay_image_url ⟨some [first]⟩ :=
  ⟨rfl, rfl⟩

/-- C3: for a provider response with an empty `hits` list,
`get_pixabay_image_url` returns `none` (the function is total here, so
no exception arises on this branch). -/
theorem empty_hits_returns_none :
    get_pixabay_image_url ⟨some []⟩ = none :=
  rfl

/-- C9: a response body without a `hits` key is treated exactly like an
empty hits list: `get_pixabay_image_url` returns `none` rather than
failing. -/
theorem missing_hits_key_returns_none :
    get_pixabay_image_url ⟨none⟩ = none ∧
    get_pixabay_image_url ⟨none⟩ = get_pixabay_image_url ⟨some []⟩ :=
  ⟨rfl, rfl⟩

/-- C7: when `CANVA_EMAIL` or `CANVA_PASSWORD` is unset, the upload step
produces only the skip message: no browser or network action occurs and
no error is raised. -/
theorem missing_canva_creds_skip (env : Env) (oracle : BrowserOracle)
    (imagePath : String)
    (h : env.CANVA_EMAIL = none ∨ env.CANVA_PASSWORD = none) :
    upload_to_canva env oracle imagePath =
      [Event.printLine
        "CANVA_EMAIL/CANVA_PASSWORD not set; skipping Canva automation."] := by
  rcases h with h | h <;> simp [upload_to_canva, h, pyTruthyStr]

/-- Witness for C7 at a concrete environment with `CANVA_EMAIL` unset. -/
theorem missing_canva_creds_skip_witness :
    upload_to_canva ⟨some "key", none, none, some "pw"⟩ ⟨false, none⟩
        "assets/image.jpg" =
      [Event.printLine
        "CANVA_EMAIL/CANVA_PASSWORD not set; skipping Canva automation."] :=
  missing_canva_creds_skip ⟨some "key", none, none, some "pw"⟩ ⟨false, none⟩
    "assets/image.jpg" (Or.inl rfl)

/-- C8: whenever the browser session actually runs (credentials
present), the trace of the upload step ends with closing the context and
then the browser, for every oracle — success, caught failure, or
timeout alike. -/
theorem browser_released_on_every_path (env : Env) (oracle : BrowserOracle)
    (imagePath : String)
    (hemail : pyTruthyStr env.CANVA_EMAIL = true)
    (hpw : pyTruthyStr env.CANVA_PASSWORD = true) :
    List.IsSuffix [Event.contextClose, Event.browserClose]
      (upload_to_canva env oracle imagePath) := by
  simp only [upload_to_canva, hemail, hpw, Bool.not_true, Bool.or_self,
    Bool.false_or, if_neg, ite_false, Bool.false_eq_true]
  exact List.suffix_append _ _

/-- Witness for C8 at a concrete environment and a failing oracle. -/
theorem browser_released_on_every_path_witness :
    List.IsSuffix [Event.contextClose, Event.browserClose]
      (upload_to_canva ⟨some "key", none, some "e", some "p"⟩
        ⟨false, some (3, "TimeoutError", "Timeout 30000ms exceeded.")⟩
        "assets/image.jpg") :=
  browser_released_on_every_path ⟨some "key", none, some "e", some "p"⟩
    ⟨false, some (3, "TimeoutError", "Timeout 30000ms exceeded.")⟩
    "assets/image.jpg" (by decide) (by decide)

/-- C2: every run of `main` that reaches the record step — every run
that completes, whatever the upload step did — writes `artifacts/run.json`
with a record holding exactly the resolved URL and the query used. -/
theorem run_record_always_written (w : World)
    (h : (script.main w).2 = ExitKind.completed) :
    Event.writeFile "artifacts/run.json"
        (FileData.runRecord ((resolvedUrl w).getD "") (queryUsed w)) ∈
      (script.main w).1 := by
  obtain ⟨env, sr, dok, dexc, br⟩ := w
  cases hk : pyTruthyStr env.PIXABAY_API_KEY with
  | false => simp [script.main, hk] at h
  | true =>
    cases sr with
    | transportError ty => simp [script.main, hk] at h
    | ok data =>
      cases hu : pyTruthyStr (get_pixabay_image_url data) with
      | false => simp [script.main, hk, hu] at h
      | true =>
        cases dok with
        | false => simp [script.main, hk, hu] at h
        | true => simp [script.main, hk, hu, resolvedUrl, queryUsed]

/-- Concrete completed run used to witness C2: the upload step is
skipped (no Canva credentials), yet the record is written. -/
def recordWorld : World :=
  ⟨⟨some "key", none, none, none⟩,
   HttpResult.ok ⟨some [⟨some "http://x/a.jpg", none⟩]⟩,
   true, "", ⟨false, none⟩⟩

/-- Witness for C2 at `recordWorld`. -/
theorem run_record_always_written_witness :
    Event.writeFile "artifacts/run.json"
        (FileData.runRecord ((resolvedUrl recordWorld).getD "")
          (queryUsed recordWorld)) ∈
      (script.main recordWorld).1 :=
  run_record_always_written recordWorld (by decide)

/-- C4: an exception of any type raised inside the browser `try` block
is caught within the upload step: the run still completes with exit code
0, the log line carries the exception type name and message, and the
diagnostic screenshot goes to `artifacts/error.png`. -/
theorem automation_error_caught (w : World) (k : Nat) (ty msg : String)
    (hkey : pyTruthyStr w.env.PIXABAY_API_KEY = true)
    (hdata : ∃ data, w.searchResult = HttpResult.ok data ∧
      pyTruthyStr (get_pixabay_image_url data) = true)
    (hdl : w.downloadOk = true)
    (hemail : pyTruthyStr w.env.CANVA_EMAIL = true)
    (hpw : pyTruthyStr w.env.CANVA_PASSWORD = true)
    (hfail : w.browser.failure = some (k, ty, msg)) :
    exitCode (script.main w).2 = some 0 ∧
    Event.printLine ("Canva automation failed: " ++ ty ++ " " ++ msg) ∈
      (script.main w).1 ∧
    Event.writeFile "artifacts/error.png" FileData.screenshotPng ∈
      (script.main w).1 := by
  obtain ⟨data, hsr, hu⟩ := hdata
  refine ⟨?_, ?_, ?_⟩ <;>
    simp [script.main, upload_to_canva, exitCode, hkey, hsr, hu, hdl, hemail,
      hpw, hfail]

/-- Concrete world used to witness C4: everything up to the upload step
succeeds, then the browser sequence raises a timeout after four steps. -/
def automationFailWorld : World :=
  ⟨⟨some "key", none, some "user@example.com", some "pw"⟩,
   HttpResult.ok ⟨some [⟨some "http://x/a.jpg", none⟩]⟩,
   true, "",
   ⟨false, some (4, "TimeoutError", "Timeout 30000ms exceeded.")⟩⟩

/-- Witness for C4 at `automationFailWorld`. -/
theorem automation_error_caught_witness :
    exitCode (script.main automationFailWorld).2 = some 0 ∧
    Event.printLine
        ("Canva automation failed: " ++ "TimeoutError" ++ " " ++
          "Timeout 30000ms exceeded.") ∈
      (script.main automationFailWorld).1 ∧
    Event.writeFile "artifacts/error.png" FileData.screenshotPng ∈
      (script.main automationFailWorld).1 :=
  automation_error_caught automationFailWorld 4 "TimeoutError"
    "Timeout 30000ms exceeded." (by decide)
    ⟨⟨some [⟨some "http://x/a.jpg", none⟩]⟩, rfl, by decide⟩
    rfl (by decide) (by decide) rfl

/-- C5: with `PIXABAY_API_KEY` unset, the whole script (directory setup
included) exits with code 1 after printing the message, and its trace
contains no file write at all. -/
theorem missing_api_key_exit1 (w : World)
    (h : w.env.PIXABAY_API_KEY = none) :
    (script.program w).2 = ExitKind.exited 1 ∧
    Event.printLine "PIXABAY_API_KEY not set. Exiting." ∈
      (script.program w).1 ∧
    (script.program w).1.filter isWriteEvent = [] := by
  refine ⟨?_, ?_, ?_⟩ <;>
    simp [script.program, script.main, h, pyTruthyStr, isWriteEvent]

/-- Concrete world used to witness C5: no environment variable set. -/
def noKeyWorld : World :=
  ⟨⟨none, none, none, none⟩, HttpResult.transportError "unreached", true, "",
   ⟨false, none⟩⟩

/-- Witness for C5 at `noKeyWorld`. -/
theorem missing_api_key_exit1_witness :
    (script.program noKeyWorld).2 = ExitKind.exited 1 ∧
    Event.printLine "PIXABAY_API_KEY not set. Exiting." ∈
      (script.program noKeyWorld).1 ∧
    (script.program noKeyWorld).1.filter isWriteEvent = [] :=
  missing_api_key_exit1 noKeyWorld rfl

/-- Python truthiness of an absent optional string is false. -/
theorem pyTruthyStr_none : pyTruthyStr none = false := rfl

/-- C6: with a valid key but an empty `hits` list from the provider, the
script exits with code 1 and writes no file — in particular neither
`assets/image.jpg` nor `artifacts/run.json`. -/
theorem empty_hits_exit1 (w : World)
    (hkey : pyTruthyStr w.env.PIXABAY_API_KEY = true)
    (hsr : w.searchResult = HttpResult.ok ⟨some []⟩) :
    (script.program w).2 = ExitKind.exited 1 ∧
    (script.program w).1.filter isWriteEvent = [] := by
  refine ⟨?_, ?_⟩ <;>
    simp [script.program, script.main, hkey, hsr, get_pixabay_image_url,
      pyTruthyStr_none, isWriteEvent]

/-- Concrete world used to witness C6: the provider answers with an
empty hits array. -/
def emptyHitsWorld : World :=
  ⟨⟨some "key", some "sunset", none, none⟩, HttpResult.ok ⟨some []⟩, true, "",
   ⟨false, none⟩⟩

/-- Witness for C6 at `emptyHitsWorld`. -/
theorem empty_hits_exit1_witness :
    (script.program emptyHitsWorld).2 = ExitKind.exited 1 ∧
    (script.program emptyHitsWorld).1.filter isWriteEvent = [] :=
  empty_hits_exit1 emptyHitsWorld (by decide) rfl

/-- C10 counterexample: when the first hit carries empty strings in both
URL fields, `get_pixabay_image_url` does not return `none` — Python's
`or` yields its second operand, the empty string. -/
theorem empty_url_fields_counterexample :
    get_pixabay_image_url ⟨some [⟨some "", some ""⟩]⟩ = some "" ∧
    ¬ get_pixabay_image_url ⟨some [⟨some "", some ""⟩]⟩ = none := by
  constructor
  · rfl
  · simp [get_pixabay_image_url, pyOrStr, pyTruthyStr]

/-- C10 amended: when the first hit has no truthy URL field — each field
absent or an empty string — `get_pixabay_image_url` returns a falsy
value (`none` or the empty string, as Python's `or` dictates), and the
process then exits with code 1 as in the no-results case, with no asset
or record written. -/
theorem falsy_first_hit_exit1 (w : World) (first : Hit) (rest : List Hit)
    (hkey : pyTruthyStr w.env.PIXABAY_API_KEY = true)
    (hsr : w.searchResult = HttpResult.ok ⟨some (first :: rest)⟩)
    (hweb : pyTruthyStr first.webformatURL = false)
    (hlarge : pyTruthyStr first.largeImageURL = false) :
    pyTruthyStr (get_pixabay_image_url ⟨some (first :: rest)⟩) = false ∧
    (script.program w).2 = ExitKind.exited 1 ∧
    (script.program w).1.filter isWriteEvent = [] := by
  have hfalsy : pyTruthyStr (get_pixabay_image_url ⟨some (first :: rest)⟩)
      = false := by
    simp [get_pixabay_image_url, pyOrStr, hweb, hlarge]
  refine ⟨hfalsy, ?_, ?_⟩ <;>
    simp [script.program, script.main, hkey, hsr, hfalsy, isWriteEvent]

/-- Concrete world used to witness the amended C10: both URL fields of
the only hit are empty strings. -/
def falsyHitWorld : World :=
  ⟨⟨some "key", none, none, none⟩,
   HttpResult.ok ⟨some [⟨some "", some ""⟩]⟩, true, "", ⟨false, none⟩⟩

/-- Witness for the amended C10 at `falsyHitWorld`. -/
theorem falsy_first_hit_exit1_witness :
    pyTruthyStr (get_pixabay_image_url ⟨some [⟨some "", some ""⟩]⟩) = false ∧
    (script.program falsyHitWorld).2 = ExitKind.exited 1 ∧
    (script.program falsyHitWorld).1.filter isWriteEvent = [] :=
  falsy_first_hit_exit1 falsyHitWorld ⟨some "", some ""⟩ [] (by decide) rfl
    (by decide) (by decide)
